import Mathlib

/-!
Shallow embedding of the stock-pulse tiered market-data layer:
the market clock (`src/utils.py`), the SQLite-backed durable store
(`src/database.py`), the upstream multi-segment fetcher
(`src/get_market_watch_data.py`), the Redis accessor (`src/config.py`),
and the read/scheduler paths of `src/main.py`.

Modelling conventions:
* Python floats become `Rat` (SQLite REAL and JSON round-trip doubles
  exactly, so rational values model the stored payloads faithfully);
  Python ints become `Int`, strings `String`, booleans `Bool`.
* Fallible I/O becomes `Except Err` values passed in as the outcome of the
  corresponding call; best-effort cache reads collapse to `Option`
  (`none` covers "redis unavailable", "key missing" and "redis raised",
  which the code all treats as a miss).
* The `updated_at` timestamp column is omitted: no property here reads it.
-/

namespace StockPulse

/-- Failure modes of the external collaborators (upstream HTTP, SQLite). -/
inductive Err where
  | timeout : Err
  | http : Nat → Err
  | db : Err
deriving DecidableEq, Repr

/-! ## Market clock (`src/utils.py`, `is_market_open`; config in `src/config.py`) -/

/-- A wall-clock instant already converted to the configured (Tehran)
timezone: its Python `weekday()` (Monday = 0 … Sunday = 6) and its
time-of-day in microseconds since midnight (Python `datetime.time`
compares lexicographically on hour/minute/second/microsecond, which is
exactly the order on microseconds-of-day). -/
structure TehranDateTime where
  weekday : Nat
  tod : Nat
deriving DecidableEq, Repr

/-- `TRADING_DAYS = {0, 1, 2, 5, 6}` (Mon, Tue, Wed, Sat, Sun). -/
def TRADING_DAYS : List Nat := [0, 1, 2, 5, 6]

/-- `MARKET_OPEN_TIME = time(9, 0)`, as microseconds of day. -/
def MARKET_OPEN_TIME : Nat := 9 * 3600 * 1000000

/-- `MARKET_CLOSE_TIME = time(12, 30)`, as microseconds of day. -/
def MARKET_CLOSE_TIME : Nat := (12 * 3600 + 30 * 60) * 1000000

/-- `is_market_open(check_time)`: false off trading days, otherwise
inclusive containment in the open/close window. -/
def is_market_open (t : TehranDateTime) : Bool :=
  if t.weekday ∉ TRADING_DAYS then
    false
  else
    decide (MARKET_OPEN_TIME ≤ t.tod ∧ t.tod ≤ MARKET_CLOSE_TIME)

/-! ## Data model (`src/schemas.py`) -/

/-- `MarketWatchBestLimit`: one bid/ask ladder level. Its JSON
serialization into `best_limits_json` and the parse back
(`json.dumps` of `model_dump()` / `json.loads` + constructor) are exact
on these int/float fields, so the store keeps the level itself. -/
structure MarketWatchBestLimit where
  n : Int
  qmd : Int
  zmd : Int
  pmd : Rat
  pmo : Rat
  zmo : Int
  qmo : Int
  rid : Int
deriving DecidableEq, Repr

/-- The `pe` field is declared `Optional[Any]`; upstream delivers either a
JSON string or a number there. -/
inductive PyVal where
  | s : String → PyVal
  | f : Rat → PyVal
deriving DecidableEq, Repr

/-- Python `str()` applied to a `pe` value, as the write path does
(`str(inst.pe)`): the identity on strings, a decimal rendering of a
number (modelled by the canonical rendering of the rational; the claims
only depend on the result being a string). -/
def PyVal.pyStr : PyVal → String
  | .s v => v
  | .f v => toString v

/-- `MarketWatchItem`: one instrument's snapshot row, fields in schema
order. `market_type` is not a declared field of the pydantic model
(extra keys are dropped on construction), so it does not appear here. -/
structure MarketWatchItem where
  lva : String
  lvc : String
  eps : Rat
  pe : Option PyVal
  pmd : Rat
  pmo : Rat
  qtj : Rat
  pdv : Rat
  ztt : Rat
  qtc : Rat
  bv : Rat
  pc : Rat
  pcpc : Rat
  pmn : Rat
  pmx : Rat
  py : Rat
  pf : Rat
  pcl : Rat
  vc : Int
  csv : String
  insID : String
  pMax : Rat
  pMin : Rat
  ztd : Rat
  blDs : List MarketWatchBestLimit
  id : Int
  insCode : String
  dEven : Int
  hEven : Int
  pClosing : Rat
  iClose : Bool
  yClose : Bool
  pDrCotVal : Rat
  zTotTran : Rat
  qTotTran5J : Rat
  qTotCap : Rat

/-- `MarketWatchResponse`: the whole-market snapshot. -/
structure MarketWatchResponse where
  marketwatch : List MarketWatchItem

/-! ## Durable store (`src/database.py`, `MarketWatchDB`) -/

/-- One row of the `instruments` table. The `insCode` PRIMARY KEY is the
association-list key, so it is not repeated inside the row. `id` has no
column (it is not in the INSERT list); `pe` is stored as TEXT via
`str(inst.pe) if inst.pe is not None else None`; `market_type` is stored
from `getattr(inst, 'market_type', None)`, which is always `None` for the
pydantic model. -/
structure InstrumentRow where
  lva : String
  lvc : String
  eps : Rat
  pe : Option String
  pmd : Rat
  pmo : Rat
  qtj : Rat
  pdv : Rat
  ztt : Rat
  qtc : Rat
  bv : Rat
  pc : Rat
  pcpc : Rat
  pmn : Rat
  pmx : Rat
  py : Rat
  pf : Rat
  pcl : Rat
  vc : Int
  csv : String
  insID : String
  pMax : Rat
  pMin : Rat
  ztd : Rat
  dEven : Int
  hEven : Int
  pClosing : Rat
  iClose : Bool
  yClose : Bool
  pDrCotVal : Rat
  zTotTran : Rat
  qTotTran5J : Rat
  qTotCap : Rat
  best_limits : List MarketWatchBestLimit
  market_type : Option String

/-- The `instruments` table: rows keyed by the `insCode` PRIMARY KEY, in
insertion order. -/
abbrev InstrumentsTable := List (String × InstrumentRow)

/-- The row the write path builds for one item (`_upsert_instruments_batch`
row tuple). -/
def toRow (it : MarketWatchItem) : InstrumentRow :=
  { lva := it.lva, lvc := it.lvc, eps := it.eps
    pe := it.pe.map PyVal.pyStr
    pmd := it.pmd, pmo := it.pmo, qtj := it.qtj, pdv := it.pdv
    ztt := it.ztt, qtc := it.qtc, bv := it.bv, pc := it.pc, pcpc := it.pcpc
    pmn := it.pmn, pmx := it.pmx, py := it.py, pf := it.pf, pcl := it.pcl
    vc := it.vc, csv := it.csv, insID := it.insID
    pMax := it.pMax, pMin := it.pMin, ztd := it.ztd
    dEven := it.dEven, hEven := it.hEven, pClosing := it.pClosing
    iClose := it.iClose, yClose := it.yClose, pDrCotVal := it.pDrCotVal
    zTotTran := it.zTotTran, qTotTran5J := it.qTotTran5J
    qTotCap := it.qTotCap, best_limits := it.blDs, market_type := none }

/-- One `INSERT ... ON CONFLICT(insCode) DO UPDATE` step: replace the row
in place when the key exists, append otherwise. -/
def upsertRow (tbl : InstrumentsTable) (k : String) (r : InstrumentRow) :
    InstrumentsTable :=
  if tbl.any (fun p => p.1 = k) then
    tbl.map (fun p => if p.1 = k then (k, r) else p)
  else
    tbl ++ [(k, r)]

/-- `_upsert_instruments_batch`: executemany of the upsert over the items. -/
def upsertInstrumentsBatch (tbl : InstrumentsTable)
    (instruments : List MarketWatchItem) : InstrumentsTable :=
  instruments.foldl (fun t it => upsertRow t it.insCode (toRow it)) tbl

/-- `save_market_watch_data(data)`: returns the count written and the new
table. A zero-record snapshot is rejected before the transaction begins.
Otherwise the transaction deletes every row and inserts the batch;
`txnFails` models an exception anywhere inside the transaction, which is
rolled back (prior table intact) with return value 0. -/
def save_market_watch_data (tbl : InstrumentsTable)
    (data : MarketWatchResponse) (txnFails : Bool) :
    Nat × InstrumentsTable :=
  let new_count := data.marketwatch.length
  if new_count = 0 then
    (0, tbl)
  else if txnFails then
    (0, tbl)
  else
    (new_count, upsertInstrumentsBatch [] data.marketwatch)

/-- Rebuild one `MarketWatchItem` from a stored row, as the read path's
constructor call does: every column is copied back, `id` is the literal
`0`, and the TEXT `pe` column comes back as a string value. -/
def rowToItem (k : String) (r : InstrumentRow) : MarketWatchItem :=
  { lva := r.lva, lvc := r.lvc, eps := r.eps
    pe := r.pe.map PyVal.s
    pmd := r.pmd, pmo := r.pmo, qtj := r.qtj, pdv := r.pdv
    ztt := r.ztt, qtc := r.qtc, bv := r.bv, pc := r.pc, pcpc := r.pcpc
    pmn := r.pmn, pmx := r.pmx, py := r.py, pf := r.pf, pcl := r.pcl
    vc := r.vc, csv := r.csv, insID := r.insID
    pMax := r.pMax, pMin := r.pMin, ztd := r.ztd
    blDs := r.best_limits, id := 0, insCode := k
    dEven := r.dEven, hEven := r.hEven, pClosing := r.pClosing
    iClose := r.iClose, yClose := r.yClose, pDrCotVal := r.pDrCotVal
    zTotTran := r.zTotTran, qTotTran5J := r.qTotTran5J
    qTotCap := r.qTotCap }

/-- `get_market_watch_from_db()`: SELECT all rows, rebuild a response. -/
def get_market_watch_from_db (tbl : InstrumentsTable) : MarketWatchResponse :=
  { marketwatch := tbl.map (fun p => rowToItem p.1 p.2) }

/-- `get_pdv_by_ins_code(ins_code)`: indexed point read of the `pdv`
column, `None` when the key is absent. -/
def get_pdv_by_ins_code (tbl : InstrumentsTable) (ins_code : String) :
    Option Rat :=
  (tbl.find? (fun p => p.1 = ins_code)).map (fun p => p.2.pdv)

/-! ## Upstream fetcher (`src/get_market_watch_data.py`) -/

/-- `asyncio.gather(*tasks)` with the default `return_exceptions=False`:
if every task succeeds the list of results is returned in task order; if
any task raises, awaiting the gather raises (here: the first failing
entry) and no result list exists. -/
def gatherAll {α : Type} : List (Except Err α) → Except Err (List α)
  | [] => .ok []
  | .error e :: _ => .error e
  | .ok x :: rs =>
    match gatherAll rs with
    | .error e => .error e
    | .ok xs => .ok (x :: xs)

/-- `fetch_merged_data(urls_dict)`: one `fetch_market_data` task per
segment, gathered concurrently, then flattened into a single
`marketwatch` list. `segments` carries each segment fetch's outcome. -/
def fetch_merged_data (segments : List (Except Err (List MarketWatchItem))) :
    Except Err MarketWatchResponse :=
  match gatherAll segments with
  | .error e => .error e
  | .ok results => .ok { marketwatch := results.flatten }

/-! ## Redis accessor (`src/config.py`, `get_redis`) -/

/-- The module-level `_redis` / `_redis_available` pair. Clients are
abstract handles (numbered). `available = none` models the initial
"unknown" `None`. -/
structure RedisState where
  client : Option Nat
  available : Option Bool
deriving DecidableEq, Repr

/-- `get_redis()`: one call, given whether `REDIS_ENABLED` is set and the
outcome a fresh `from_url` + `ping` attempt would have (`some c` for a
working client, `none` for a raised connection/ping error; it is only
consulted when the code actually tries to connect). Returns the value
handed to the caller and the updated module state. -/
def get_redis (enabled : Bool) (st : RedisState) (connect : Option Nat) :
    Option Nat × RedisState :=
  if ¬ enabled then
    (none, st)
  else if st.available = some false then
    (none, st)
  else
    match st.client with
    | some c => (some c, st)
    | none =>
      match connect with
      | some c => (some c, { client := some c, available := some true })
      | none => (none, { client := none, available := some false })

/-- A sequence of `get_redis` calls, threading the module state; the n-th
entry of `connects` is what a connection attempt would yield at call n.
Returns the values the callers saw and the final state. -/
def get_redis_trace (enabled : Bool) (st : RedisState)
    (connects : List (Option Nat)) : List (Option Nat) × RedisState :=
  match connects with
  | [] => ([], st)
  | c :: cs =>
    let (v, st') := get_redis enabled st c
    let (vs, stFinal) := get_redis_trace enabled st' cs
    (v :: vs, stFinal)

/-! ## Read paths (`src/main.py`) -/

/-- Which source a `/marketwatch` response came from. -/
inductive Source where
  | redis : Source
  | live : Source
  | db : Source
deriving DecidableEq, Repr

/-- The `/marketwatch` handler `get_market_watch`. `cached` is the
deserialized `mw:snapshot` blob when the Redis path yields one (`none`
covers an unavailable client, a missing/empty blob, and a raised cache
error — all fall through to the miss branch). On a miss the handler
branches on `is_market_open()`: open goes to `fetch_merged_data` (whose
failure propagates as the 500 error), closed reads the durable store.
The backfill task never changes the returned response. -/
def handle_get_market_watch (cached : Option MarketWatchResponse)
    (marketOpen : Bool) (fetched : Except Err MarketWatchResponse)
    (tbl : InstrumentsTable) : Except Err (MarketWatchResponse × Source) :=
  match cached with
  | some snap => .ok (snap, .redis)
  | none =>
    if marketOpen then
      match fetched with
      | .ok resp => .ok (resp, .live)
      | .error e => .error e
    else
      .ok (get_market_watch_from_db tbl, .db)

/-- One tick of the `/ws/price` loop body (`price_websocket`). When the
market is open: hot `:price` key, else `get_price` from upstream, whose
exception propagates out of the loop. When closed: hot `:pdv` key, else
`get_pdv_by_ins_code`, else the literal `0.0` sentinel. Cache reads that
fail are `none`. -/
def ws_price_tick (marketOpen : Bool) (cachePrice cachePdv : Option Rat)
    (upstreamPrice : Except Err Rat) (tbl : InstrumentsTable)
    (ins_code : String) : Except Err Rat :=
  if marketOpen then
    match cachePrice with
    | some v => .ok v
    | none => upstreamPrice
  else
    .ok (match cachePdv with
      | some v => v
      | none =>
        match get_pdv_by_ins_code tbl ins_code with
        | some v => v
        | none => 0)

/-! ## Snapshot scheduler (`src/main.py`, `_market_close_watcher` and
`_save_snapshot_if_valid`) -/

/-- The watcher-owned process state: `app.state._last_snapshot_date`
(a Tehran-timezone calendar date, abstracted to a day number) together
with the durable `instruments` table it writes through. -/
structure WatcherState where
  lastSnapshotDate : Option Nat
  tbl : InstrumentsTable

/-- `_save_snapshot_if_valid()`: fetch the merged snapshot and persist it
via `save_market_watch_data`. Every failure (timeout, fetch error,
anything else) is caught inside and only logged, so the caller always
sees a normal return; on fetch failure the table is untouched. The Redis
mirroring never changes the table. -/
def save_snapshot_if_valid (tbl : InstrumentsTable)
    (fetched : Except Err MarketWatchResponse) (txnFails : Bool) :
    InstrumentsTable :=
  match fetched with
  | .error _ => tbl
  | .ok resp => (save_market_watch_data tbl resp txnFails).2

/-- One firing of the close-time trigger body (the code after the sleep in
`_market_close_watcher`): if `_last_snapshot_date` already equals today's
date, nothing happens; otherwise a persistence pass runs (its failures
swallowed inside `_save_snapshot_if_valid`) and `_last_snapshot_date` is
set to today. The returned flag says whether the persistence pass ran. -/
def watcher_close_tick (st : WatcherState) (today : Nat)
    (fetched : Except Err MarketWatchResponse) (txnFails : Bool) :
    WatcherState × Bool :=
  if st.lastSnapshotDate = some today then
    (st, false)
  else
    ({ lastSnapshotDate := some today
       tbl := save_snapshot_if_valid st.tbl fetched txnFails }, true)

/-! ## Shared sample data and helper lemmas -/

/-- A concrete instrument record used by witnesses (note `id = 5` and a
numeric `pe`). -/
def sampleItem : MarketWatchItem :=
  { lva := "FOOD1", lvc := "Foo Industries", eps := 120
    pe := some (PyVal.f (7 / 2))
    pmd := 1000, pmo := 1010, qtj := 5, pdv := 1005, ztt := 12, qtc := 60000
    bv := 3, pc := 1002, pcpc := 7 / 10, pmn := 990, pmx := 1020, py := 995
    pf := 998, pcl := 1001, vc := 3, csv := "A", insID := "IRO1FOOD0001"
    pMax := 1044, pMin := 946, ztd := 2500000
    blDs := [{ n := 1, qmd := 100, zmd := 2, pmd := 1000, pmo := 1001
               zmo := 3, qmo := 150, rid := 0 }]
    id := 5, insCode := "123", dEven := 20240101, hEven := 123000
    pClosing := 1002, iClose := false, yClose := false, pDrCotVal := 1005
    zTotTran := 12, qTotTran5J := 60000, qTotCap := 60300000 }

/-- A second concrete record with a distinct `insCode`. -/
def sampleItem2 : MarketWatchItem :=
  { sampleItem with insCode := "456", lva := "BAR1", id := 9, pe := none
                    pdv := 77 }

theorem upsertRow_of_not_mem (tbl : InstrumentsTable) (k : String)
    (r : InstrumentRow) (h : tbl.any (fun p => p.1 = k) = false) :
    upsertRow tbl k r = tbl ++ [(k, r)] := by
  simp [upsertRow, h]

theorem upsertInstrumentsBatch_eq_append (items : List MarketWatchItem)
    (acc : InstrumentsTable)
    (hnd : (items.map (fun it => it.insCode)).Nodup)
    (hdisj : ∀ it ∈ items, acc.any (fun p => p.1 = it.insCode) = false) :
    upsertInstrumentsBatch acc items =
      acc ++ items.map (fun it => (it.insCode, toRow it)) := by
  induction items generalizing acc with
  | nil => simp [upsertInstrumentsBatch]
  | cons it rest ih =>
    have hacc : acc.any (fun p => p.1 = it.insCode) = false :=
      hdisj it (List.mem_cons_self it rest)
    have hstep : upsertRow acc it.insCode (toRow it) =
        acc ++ [(it.insCode, toRow it)] :=
      upsertRow_of_not_mem acc it.insCode (toRow it) hacc
    have hnd' : (rest.map (fun x => x.insCode)).Nodup :=
      (List.nodup_cons.mp hnd).2
    have hhead : it.insCode ∉ rest.map (fun x => x.insCode) :=
      (List.nodup_cons.mp hnd).1
    have hdisj' : ∀ x ∈ rest,
        (acc ++ [(it.insCode, toRow it)]).any
          (fun p => p.1 = x.insCode) = false := by
      intro x hx
      have h1 : acc.any (fun p => p.1 = x.insCode) = false :=
        hdisj x (List.mem_cons_of_mem it hx)
      have h2 : it.insCode ≠ x.insCode := by
        intro hk
        exact hhead (hk ▸ List.mem_map_of_mem (fun y => y.insCode) hx)
      rw [List.any_append, Bool.or_eq_false_iff]
      refine ⟨h1, ?_⟩
      simp [h2]
    calc upsertInstrumentsBatch acc (it :: rest)
        = upsertInstrumentsBatch (upsertRow acc it.insCode (toRow it)) rest :=
          rfl
      _ = upsertInstrumentsBatch (acc ++ [(it.insCode, toRow it)]) rest := by
          rw [hstep]
      _ = acc ++ [(it.insCode, toRow it)] ++
            rest.map (fun x => (x.insCode, toRow x)) := ih _ hnd' hdisj'
      _ = acc ++ (it :: rest).map (fun x => (x.insCode, toRow x)) := by
          simp

theorem gatherAll_error_of_mem {α : Type} (rs : List (Except Err α))
    (e : Err) (h : Except.error e ∈ rs) :
    ∃ e', gatherAll rs = Except.error e' := by
  induction rs with
  | nil => cases h
  | cons r rest ih =>
    cases r with
    | error e0 => exact ⟨e0, rfl⟩
    | ok x =>
      have hmem : Except.error e ∈ rest := by
        rcases List.mem_cons.mp h with h1 | h1
        · cases h1
        · exact h1
      obtain ⟨e', he'⟩ := ih hmem
      refine ⟨e', ?_⟩
      simp only [gatherAll, he']

theorem gatherAll_ok_map {α : Type} (ls : List α) :
    gatherAll (ls.map Except.ok) = Except.ok ls := by
  induction ls with
  | nil => rfl
  | cons x rest ih => simp [gatherAll, ih]

/-! ## Claim theorems -/

/-- C3: `is_market_open(now)` is true iff the (Tehran-converted) weekday
is a trading day and open-time ≤ time-of-day ≤ close-time, inclusive on
both boundaries; in particular it is false on every non-trading weekday,
true at exactly the open and close instants on a trading day, and false
one microsecond outside the window. -/
theorem is_market_open_spec :
    (∀ t : TehranDateTime, is_market_open t = true ↔
        (t.weekday ∈ TRADING_DAYS ∧
          MARKET_OPEN_TIME ≤ t.tod ∧ t.tod ≤ MARKET_CLOSE_TIME)) ∧
    (∀ t : TehranDateTime,
        t.weekday ∉ TRADING_DAYS → is_market_open t = false) ∧
    (∀ w, w ∈ TRADING_DAYS →
        is_market_open ⟨w, MARKET_OPEN_TIME⟩ = true ∧
        is_market_open ⟨w, MARKET_CLOSE_TIME⟩ = true ∧
        is_market_open ⟨w, MARKET_OPEN_TIME - 1⟩ = false ∧
        is_market_open ⟨w, MARKET_CLOSE_TIME + 1⟩ = false) := by
  refine ⟨?_, ?_, ?_⟩
  · intro t
    by_cases h : t.weekday ∈ TRADING_DAYS <;> simp [is_market_open, h]
  · intro t h
    simp [is_market_open, h]
  · intro w hw
    simp only [TRADING_DAYS, List.mem_cons, List.mem_singleton,
      List.not_mem_nil, or_false] at hw
    rcases hw with h | h | h | h | h <;> subst h <;>
      exact ⟨by decide, by decide, by decide, by decide⟩

/-- Witness for C3 at concrete inputs: Thursday (weekday 3) is not a
trading day, so the clock reports closed even at the open instant. -/
theorem is_market_open_spec_witness :
    is_market_open ⟨3, MARKET_OPEN_TIME⟩ = false :=
  is_market_open_spec.2.1 ⟨3, MARKET_OPEN_TIME⟩ (by decide)

/-- C5: `fetch_merged_data` fails as a whole when any segment fetch fails
(no partial merged list is ever returned), and concatenates the segment
lists when every segment succeeds. -/
theorem fetch_merged_data_spec :
    (∀ (segments : List (Except Err (List MarketWatchItem))) (e : Err),
        Except.error e ∈ segments →
        ∃ e', fetch_merged_data segments = Except.error e') ∧
    (∀ ls : List (List MarketWatchItem),
        fetch_merged_data (ls.map Except.ok) =
          Except.ok { marketwatch := ls.flatten }) := by
  constructor
  · intro segments e h
    obtain ⟨e', he'⟩ := gatherAll_error_of_mem segments e h
    exact ⟨e', by simp [fetch_merged_data, he']⟩
  · intro ls
    simp [fetch_merged_data, gatherAll_ok_map]

/-- Witness for C5 at a concrete input: segment A succeeds with one
record, segment B times out, and the merged fetch is an error, never the
partial one-record list. -/
theorem fetch_merged_data_spec_witness :
    fetch_merged_data [Except.ok [sampleItem], Except.error Err.timeout] ≠
      Except.ok { marketwatch := [sampleItem] } := by
  obtain ⟨e', he'⟩ := fetch_merged_data_spec.1
    [Except.ok [sampleItem], Except.error Err.timeout] Err.timeout
    (by simp)
  rw [he']
  simp

/-- C8: on a hot-cache miss while the market is closed, the
`/marketwatch` handler returns exactly the durable store's reconstructed
snapshot, unmodified, sourced from the database. -/
theorem get_market_watch_closed_miss_spec :
    ∀ (fetched : Except Err MarketWatchResponse) (tbl : InstrumentsTable),
      handle_get_market_watch none false fetched tbl =
        Except.ok (get_market_watch_from_db tbl, Source.db) := by
  intro fetched tbl
  rfl

/-- C9: on a hot-cache hit, the `/marketwatch` handler returns the
deserialized cached snapshot and its result does not depend on the
upstream fetcher or the durable store (they are never consulted). -/
theorem get_market_watch_cache_hit_spec :
    ∀ (snap : MarketWatchResponse) (marketOpen : Bool)
      (fetched fetched' : Except Err MarketWatchResponse)
      (tbl tbl' : InstrumentsTable),
      handle_get_market_watch (some snap) marketOpen fetched tbl =
          Except.ok (snap, Source.redis) ∧
      handle_get_market_watch (some snap) marketOpen fetched tbl =
        handle_get_market_watch (some snap) marketOpen fetched' tbl' := by
  intro snap marketOpen fetched fetched' tbl tbl'
  exact ⟨rfl, rfl⟩

/-- C10: once `get_redis` fails to connect/ping, `_redis_available` is
latched to `false`; from then on every call returns `None` with the
state unchanged, regardless of whether a reconnection attempt would have
succeeded (none is made). -/
theorem get_redis_latch_spec :
    (∀ st : RedisState, st.client = none → st.available ≠ some false →
        get_redis true st none = (none, ⟨none, some false⟩)) ∧
    (∀ (st : RedisState) (connect : Option Nat),
        st.available = some false → get_redis true st connect = (none, st)) ∧
    (∀ (st : RedisState) (connects : List (Option Nat)),
        st.available = some false →
        get_redis_trace true st connects =
          (connects.map (fun _ => none), st)) := by
  refine ⟨?_, ?_, ?_⟩
  · intro st hclient havail
    simp [get_redis, havail, hclient]
  · intro st connect havail
    simp [get_redis, havail]
  · intro st connects havail
    induction connects with
    | nil => rfl
    | cons c cs ih =>
      simp [get_redis_trace, get_redis, havail, ih]

/-- Witness for C10 at concrete inputs: from the initial state a failed
connection latches the flag, and two further calls (even with a healthy
server available) both return `None` and leave the state latched. -/
theorem get_redis_latch_spec_witness :
    get_redis true ⟨none, none⟩ none = (none, ⟨none, some false⟩) ∧
    get_redis_trace true ⟨none, some false⟩ [some 7, some 8] =
      ([none, none], ⟨none, some false⟩) :=
  ⟨get_redis_latch_spec.1 ⟨none, none⟩ rfl (by simp),
    get_redis_latch_spec.2.2 ⟨none, some false⟩ [some 7, some 8] rfl⟩

/-- C1: `save_market_watch_data` is all-or-nothing: an empty snapshot is
rejected before the transaction (returns 0, table untouched); a failing
transaction rolls back (returns 0, table untouched); a committed
transaction returns the record count and leaves the table holding
exactly the snapshot's rows (one per identifier when identifiers are
unique), independent of the prior contents. -/
theorem save_market_watch_all_or_nothing
    (tbl : InstrumentsTable) (data : MarketWatchResponse) (txnFails : Bool) :
    (data.marketwatch = [] →
        save_market_watch_data tbl data txnFails = (0, tbl)) ∧
    (data.marketwatch ≠ [] → txnFails = true →
        save_market_watch_data tbl data txnFails = (0, tbl)) ∧
    (data.marketwatch ≠ [] →
        save_market_watch_data tbl data false =
          (data.marketwatch.length,
            upsertInstrumentsBatch [] data.marketwatch)) ∧
    (data.marketwatch ≠ [] →
        (data.marketwatch.map (fun it => it.insCode)).Nodup →
        (save_market_watch_data tbl data false).2 =
          data.marketwatch.map (fun it => (it.insCode, toRow it))) := by
  refine ⟨?_, ?_, ?_, ?_⟩
  · intro h
    simp [save_market_watch_data, h]
  · intro hne ht
    subst ht
    have hlen : data.marketwatch.length ≠ 0 := by
      simpa [List.length_eq_zero] using hne
    simp [save_market_watch_data, hlen]
  · intro hne
    have hlen : data.marketwatch.length ≠ 0 := by
      simpa [List.length_eq_zero] using hne
    simp [save_market_watch_data, hlen]
  · intro hne hnd
    have hlen : data.marketwatch.length ≠ 0 := by
      simpa [List.length_eq_zero] using hne
    have hb := upsertInstrumentsBatch_eq_append data.marketwatch []
      hnd (fun it _ => rfl)
    simpa [save_market_watch_data, hlen] using hb

/-- Witness for C1 at concrete inputs: empty-snapshot rejection, rollback
on a failing transaction, and full replacement on success. -/
theorem save_market_watch_all_or_nothing_witness :
    save_market_watch_data [("123", toRow sampleItem)]
        { marketwatch := [] } false = (0, [("123", toRow sampleItem)]) ∧
    save_market_watch_data [("123", toRow sampleItem)]
        { marketwatch := [sampleItem2] } true =
      (0, [("123", toRow sampleItem)]) ∧
    (save_market_watch_data [("123", toRow sampleItem)]
        { marketwatch := [sampleItem2] } false).2 =
      [("456", toRow sampleItem2)] := by
  refine ⟨?_, ?_, ?_⟩
  · exact (save_market_watch_all_or_nothing _ _ false).1 rfl
  · exact (save_market_watch_all_or_nothing _ _ true).2.1 (by simp) rfl
  · have hrepl := (save_market_watch_all_or_nothing
      [("123", toRow sampleItem)] { marketwatch := [sampleItem2] }
      false).2.2.2 (by simp) (by decide)
    simpa [sampleItem2] using hrepl

/-- C2: two firings of the close-time trigger within the same calendar
day persist at most once — whatever the first firing did, the second
finds the last-persisted date equal to today, changes nothing, and runs
no persistence pass. -/
theorem watcher_at_most_once_per_day
    (st : WatcherState) (today : Nat)
    (f1 f2 : Except Err MarketWatchResponse) (b1 b2 : Bool) :
    watcher_close_tick (watcher_close_tick st today f1 b1).1 today f2 b2 =
      ((watcher_close_tick st today f1 b1).1, false) := by
  by_cases h : st.lastSnapshotDate = some today <;>
    simp [watcher_close_tick, h]

/-- Counterexample to C7 as stated: starting with no recorded date, a
close-time pass whose upstream fetch fails (so nothing is persisted)
still sets the last-persisted date to today — it does not leave it
unchanged, so no same-day retry ever happens. -/
theorem watcher_failed_pass_counterexample :
    ((watcher_close_tick ⟨none, []⟩ 0 (Except.error Err.timeout) false).1
      ).lastSnapshotDate = some 0 ∧
    (watcher_close_tick ⟨none, []⟩ 0 (Except.error Err.timeout) false).2 =
      true ∧
    some 0 ≠ (⟨none, []⟩ : WatcherState).lastSnapshotDate := by
  exact ⟨rfl, rfl, by simp⟩

/-- C7 (amended): whenever the close-time trigger fires on a day not yet
recorded, the last-persisted date is set to that day after the pass
whether the pass succeeded or failed; a pass whose fetch fails leaves
the durable table untouched but is still recorded as that day's
persistence. -/
theorem watcher_date_recorded_even_on_failure
    (st : WatcherState) (today : Nat)
    (fetched : Except Err MarketWatchResponse) (txnFails : Bool)
    (hnew : st.lastSnapshotDate ≠ some today) :
    ((watcher_close_tick st today fetched txnFails).1).lastSnapshotDate =
        some today ∧
    (watcher_close_tick st today fetched txnFails).2 = true ∧
    (∀ e, fetched = Except.error e →
        ((watcher_close_tick st today fetched txnFails).1).tbl = st.tbl) := by
  refine ⟨?_, ?_, ?_⟩
  · simp [watcher_close_tick, hnew]
  · simp [watcher_close_tick, hnew]
  · intro e he
    simp [watcher_close_tick, hnew, save_snapshot_if_valid, he]

/-- Witness for the amended C7 at concrete inputs: day 3 recorded, the
trigger fires on day 4 with a database failure, and day 4 is recorded
anyway. -/
theorem watcher_date_recorded_even_on_failure_witness :
    ((watcher_close_tick ⟨some 3, []⟩ 4 (Except.error Err.db) true).1
      ).lastSnapshotDate = some 4 :=
  (watcher_date_recorded_even_on_failure ⟨some 3, []⟩ 4
    (Except.error Err.db) true (by simp)).1

/-- Counterexample to C6 as stated: with the market open, the hot cache
missing and the durable store empty, the per-tick read is the upstream
fetch outcome — a timeout there surfaces as an error, not as the zero
sentinel, so "never an error, regardless of market state" fails. -/
theorem ws_price_tick_counterexample :
    ws_price_tick true none none (Except.error Err.timeout) [] "x" =
        Except.error Err.timeout ∧
    get_pdv_by_ins_code [] "x" = none ∧
    ws_price_tick true none none (Except.error Err.timeout) [] "x" ≠
        Except.ok (0 : Rat) := by
  refine ⟨rfl, rfl, ?_⟩
  intro hcontra
  exact Except.noConfusion hcontra

/-- C6 (amended): when the market is closed, an identifier absent from
the hot cache and the durable store yields the zero sentinel, and the
closed-market tick never returns an error for any inputs. -/
theorem ws_price_tick_closed_sentinel
    (cachePrice : Option Rat) (upstreamPrice : Except Err Rat)
    (tbl : InstrumentsTable) (ins_code : String)
    (habsent : get_pdv_by_ins_code tbl ins_code = none) :
    ws_price_tick false cachePrice none upstreamPrice tbl ins_code =
      Except.ok (0 : Rat) ∧
    (∀ cachePdv, ∃ v : Rat,
        ws_price_tick false cachePrice cachePdv upstreamPrice tbl ins_code =
          Except.ok v) := by
  constructor
  · simp [ws_price_tick, habsent]
  · intro cachePdv
    cases cachePdv with
    | none => exact ⟨_, rfl⟩
    | some v => exact ⟨v, rfl⟩

/-- Witness for the amended C6 at concrete inputs: market closed, empty
store, unknown identifier, upstream unreachable — the tick still
delivers `0`. -/
theorem ws_price_tick_closed_sentinel_witness :
    ws_price_tick false none none (Except.error Err.timeout) [] "x" =
      Except.ok (0 : Rat) :=
  (ws_price_tick_closed_sentinel none (Except.error Err.timeout) [] "x"
    rfl).1

/-- An item after one write/read round trip: every field survives except
`id`, which the read path hard-codes to `0`, and `pe`, which comes back
as the TEXT representation written by `str(...)`. -/
def roundtripItem (it : MarketWatchItem) : MarketWatchItem :=
  { it with id := 0, pe := it.pe.map (fun v => PyVal.s v.pyStr) }

theorem roundtripItem_insCode (it : MarketWatchItem) :
    (roundtripItem it).insCode = it.insCode := rfl

theorem rowToItem_toRow (it : MarketWatchItem) :
    rowToItem it.insCode (toRow it) = roundtripItem it := by
  rcases it with ⟨lva, lvc, eps, pe, pmd, pmo, qtj, pdv, ztt, qtc, bv, pc,
    pcpc, pmn, pmx, py, pf, pcl, vc, csv, insID, pMax, pMin, ztd, blDs,
    id, insCode, dEven, hEven, pClosing, iClose, yClose, pDrCotVal,
    zTotTran, qTotTran5J, qTotCap⟩
  cases pe <;> rfl

theorem map_pair_rowToItem (l : List MarketWatchItem) :
    (l.map (fun it => (it.insCode, toRow it))).map
      (fun p => rowToItem p.1 p.2) = l.map roundtripItem := by
  induction l with
  | nil => rfl
  | cons it rest ih => simp [ih, rowToItem_toRow]

/-- Counterexample to C4 as stated: writing a snapshot whose single
record has `id = 5` and reading it back yields a record with `id = 0`,
so the read snapshot is not field-for-field equal to the written one. -/
theorem roundtrip_counterexample :
    (get_market_watch_from_db
        (save_market_watch_data [] { marketwatch := [sampleItem] } false).2
      ).marketwatch.map (fun it => it.id) = [0] ∧
    ({ marketwatch := [sampleItem] } :
        MarketWatchResponse).marketwatch.map (fun it => it.id) = [5] ∧
    get_market_watch_from_db
        (save_market_watch_data [] { marketwatch := [sampleItem] } false).2 ≠
      { marketwatch := [sampleItem] } := by
  refine ⟨rfl, rfl, ?_⟩
  intro hcontra
  have hid := congrArg
    (fun r : MarketWatchResponse => r.marketwatch.map (fun it => it.id))
    hcontra
  exact absurd hid (by decide)

/-- C4 (amended): for every non-empty snapshot with unique identifiers,
write followed by read returns a snapshot with the same identifiers in
the same order, each record equal to the written one on every field
except `id` (reset to `0`) and `pe` (stringified when present). -/
theorem roundtrip_amended (tbl : InstrumentsTable)
    (data : MarketWatchResponse)
    (hnd : (data.marketwatch.map (fun it => it.insCode)).Nodup)
    (hne : data.marketwatch ≠ []) :
    get_market_watch_from_db (save_market_watch_data tbl data false).2 =
      { marketwatch := data.marketwatch.map roundtripItem } ∧
    (get_market_watch_from_db (save_market_watch_data tbl data false).2
      ).marketwatch.map (fun it => it.insCode) =
      data.marketwatch.map (fun it => it.insCode) := by
  have hlen : data.marketwatch.length ≠ 0 := by
    simpa [List.length_eq_zero] using hne
  have hsave : (save_market_watch_data tbl data false).2 =
      data.marketwatch.map (fun it => (it.insCode, toRow it)) := by
    have hb := upsertInstrumentsBatch_eq_append data.marketwatch []
      hnd (fun it _ => rfl)
    simpa [save_market_watch_data, hlen] using hb
  have hread : get_market_watch_from_db
      (save_market_watch_data tbl data false).2 =
      { marketwatch := data.marketwatch.map roundtripItem } := by
    rw [hsave]
    simp only [get_market_watch_from_db]
    rw [map_pair_rowToItem]
  refine ⟨hread, ?_⟩
  rw [hread]
  simp [List.map_map, Function.comp, roundtripItem_insCode]

/-- Witness for the amended C4 at concrete inputs: a two-record snapshot
round-trips to the two records with `id` zeroed and `pe` stringified. -/
theorem roundtrip_amended_witness :
    get_market_watch_from_db
        (save_market_watch_data []
          { marketwatch := [sampleItem, sampleItem2] } false).2 =
      { marketwatch := [roundtripItem sampleItem,
          roundtripItem sampleItem2] } := by
  simpa using (roundtrip_amended []
    { marketwatch := [sampleItem, sampleItem2] } (by decide) (by simp)).1

end StockPulse
